import Mathlib

/-!
Verification of the generation endpoint of `pisodetalkmaker-backend`.

The repository contains two revisions of the same serverless function
`api/generate.ts` (here called revision A, `src/api/generate.ts`, and
revision B, `src/unnamed/part_000`).  Both validate a JSON request with a
zod schema, build a Japanese prompt, call the OpenAI chat-completions API
under a 30 second abort timer, defensively parse the model output and
answer with a JSON response.

The embedding below models:
  * JSON values (`Json`) and the behaviour of `JSON.parse`
    (`jsonParse`, a fuel-indexed recursive-descent reading of the JSON
    grammar; numbers are kept as rationals, which is exact for every
    integer-valued literal the validator accepts),
  * JavaScript property access including the `TypeError` thrown when a
    property of `null` is read (`getProp`),
  * the zod `InputSchema` (`InputSchema.safeParse`): each field is
    independently optional with a default, and a flattened error names
    every offending field,
  * both handlers as pure functions of an environment that supplies the
    HTTP verb, the transport body, the one random boolean drawn per
    request, the presence of the API key (revision B) and the outcome of
    the single external model call.
-/

/-- JSON values.  `jnum` keeps the mathematically exact rational value of a
numeric literal; this matches the JavaScript double for every integer in
the range the validator accepts. -/
inductive Json where
  | jnull : Json
  | jbool : Bool → Json
  | jnum : ℚ → Json
  | jstr : String → Json
  | jarr : List Json → Json
  | jobj : List (String × Json) → Json

/-- Last-wins field lookup, matching the object produced by `JSON.parse`
when a key is repeated. -/
def lookupField (fs : List (String × Json)) (k : String) : Option Json :=
  fs.foldl (fun acc p => if p.1 = k then some p.2 else acc) none

/-- JSON whitespace accepted between tokens. -/
def jsonWs (c : Char) : Bool :=
  c = ' ' || c = '\t' || c = '\n' || c = '\r'

/-- Drop leading JSON whitespace. -/
def skipWs : List Char → List Char
  | [] => []
  | c :: cs => if jsonWs c then skipWs cs else c :: cs

/-- Hexadecimal digit value, for `\uXXXX` escapes. -/
def hexVal (c : Char) : Option Nat :=
  if '0' ≤ c ∧ c ≤ '9' then some (c.toNat - 48)
  else if 'a' ≤ c ∧ c ≤ 'f' then some (c.toNat - 87)
  else if 'A' ≤ c ∧ c ≤ 'F' then some (c.toNat - 55)
  else none

/-- Read four hexadecimal digits. -/
def read4Hex : List Char → Option (Nat × List Char)
  | a :: b :: c :: d :: rest => do
    let va ← hexVal a
    let vb ← hexVal b
    let vc ← hexVal c
    let vd ← hexVal d
    some (((va * 16 + vb) * 16 + vc) * 16 + vd, rest)
  | _ => none

/-- Body of a JSON string literal (after the opening quote), with the
escape sequences of the JSON grammar.  Surrogate pairs written as two
`\u` escapes are combined into one code point, as `JSON.parse` does. -/
def parseStringChars : Nat → List Char → Except String (List Char × List Char)
  | 0, _ => .error "string nesting exhausted"
  | _ + 1, [] => .error "Unterminated string in JSON"
  | fuel + 1, c :: cs =>
    if c = '"' then .ok ([], cs)
    else if c = '\\' then
      match cs with
      | [] => .error "Bad escape in JSON string"
      | e :: cs1 =>
        if e = '"' ∨ e = '\\' ∨ e = '/' then do
          let (tl, r) ← parseStringChars fuel cs1
          .ok (e :: tl, r)
        else if e = 'b' then do
          let (tl, r) ← parseStringChars fuel cs1
          .ok (Char.ofNat 8 :: tl, r)
        else if e = 'f' then do
          let (tl, r) ← parseStringChars fuel cs1
          .ok (Char.ofNat 12 :: tl, r)
        else if e = 'n' then do
          let (tl, r) ← parseStringChars fuel cs1
          .ok ('\n' :: tl, r)
        else if e = 'r' then do
          let (tl, r) ← parseStringChars fuel cs1
          .ok ('\r' :: tl, r)
        else if e = 't' then do
          let (tl, r) ← parseStringChars fuel cs1
          .ok ('\t' :: tl, r)
        else if e = 'u' then
          match read4Hex cs1 with
          | none => .error "Bad Unicode escape in JSON"
          | some (n, cs2) =>
            if 0xD800 ≤ n ∧ n < 0xDC00 then
              match cs2 with
              | '\\' :: 'u' :: cs3 =>
                match read4Hex cs3 with
                | some (m, cs4) =>
                  if 0xDC00 ≤ m ∧ m < 0xE000 then do
                    let (tl, r) ← parseStringChars fuel cs4
                    .ok (Char.ofNat (0x10000 + (n - 0xD800) * 0x400 + (m - 0xDC00)) :: tl, r)
                  else do
                    let (tl, r) ← parseStringChars fuel ('\\' :: 'u' :: cs3)
                    .ok (Char.ofNat n :: tl, r)
                | none => .error "Bad Unicode escape in JSON"
              | _ => do
                let (tl, r) ← parseStringChars fuel cs2
                .ok (Char.ofNat n :: tl, r)
            else do
              let (tl, r) ← parseStringChars fuel cs2
              .ok (Char.ofNat n :: tl, r)
        else .error "Bad escape in JSON string"
    else if c.toNat < 32 then .error "Bad control character in JSON string"
    else do
      let (tl, r) ← parseStringChars fuel cs
      .ok (c :: tl, r)

/-- Decimal value of a digit list. -/
def digitsToNat (ds : List Char) : Nat :=
  ds.foldl (fun a c => a * 10 + (c.toNat - 48)) 0

/-- Exact rational value of a parsed number: sign, integer digits,
fraction digits and exponent. -/
def numValue (neg : Bool) (ids fds : List Char) (ex : ℤ) : ℚ :=
  let mant : ℤ := (digitsToNat (ids ++ fds) : ℤ)
  let mant : ℤ := if neg then -mant else mant
  let e : ℤ := ex - (fds.length : ℤ)
  if 0 ≤ e then (mant : ℚ) * (10 : ℚ) ^ e.toNat
  else (mant : ℚ) / (10 : ℚ) ^ (-e).toNat

/-- Exponent part of a JSON number. -/
def parseNumberExp (neg : Bool) (ids fds : List Char) (cs : List Char) :
    Except String (ℚ × List Char) :=
  let (esign, cs1) : ℤ × List Char := match cs with
    | '+' :: r => (1, r)
    | '-' :: r => (-1, r)
    | _ => (1, cs)
  match List.span Char.isDigit cs1 with
  | ([], _) => .error "Exponent part is missing a number in JSON"
  | (eds, r) => .ok (numValue neg ids fds (esign * (digitsToNat eds : ℤ)), r)

/-- A JSON number literal: optional minus, integer part without leading
zeros, optional fraction, optional exponent; its exact rational value. -/
def parseNumber (cs : List Char) : Except String (ℚ × List Char) :=
  let (neg, cs1) := match cs with
    | '-' :: r => (true, r)
    | _ => (false, cs)
  match List.span Char.isDigit cs1 with
  | ([], _) => .error "Unexpected token in JSON"
  | (ids, r1) =>
    if 2 ≤ ids.length ∧ ids.head? = some '0' then .error "Unexpected number in JSON"
    else
      let fr : List Char × List Char × Bool := match r1 with
        | '.' :: rr =>
          match List.span Char.isDigit rr with
          | ([], _) => ([], r1, false)
          | (ds, r2) => (ds, r2, true)
        | _ => ([], r1, true)
      match fr with
      | (_, _, false) => .error "Unterminated fractional number in JSON"
      | (fds, r2, true) =>
        match r2 with
        | 'e' :: r3 => parseNumberExp neg ids fds r3
        | 'E' :: r3 => parseNumberExp neg ids fds r3
        | _ => .ok (numValue neg ids fds 0, r2)

/-- Match an expected keyword tail such as `ull` of `null`. -/
def expectChars : List Char → List Char → Option (List Char)
  | [], cs => some cs
  | p :: ps, c :: cs => if c = p then expectChars ps cs else none
  | _ :: _, [] => none

mutual

/-- A JSON value, by recursive descent; `fuel` bounds the recursion depth
and is chosen large enough at the top entry (`jsonParse`). -/
def parseVal : Nat → List Char → Except String (Json × List Char)
  | 0, _ => .error "JSON nesting exhausted"
  | fuel + 1, cs =>
    match skipWs cs with
    | [] => .error "Unexpected end of JSON input"
    | c :: rest =>
      if c = 'n' then
        match expectChars ['u', 'l', 'l'] rest with
        | some r => .ok (Json.jnull, r)
        | none => .error "Unexpected token in JSON"
      else if c = 't' then
        match expectChars ['r', 'u', 'e'] rest with
        | some r => .ok (Json.jbool true, r)
        | none => .error "Unexpected token in JSON"
      else if c = 'f' then
        match expectChars ['a', 'l', 's', 'e'] rest with
        | some r => .ok (Json.jbool false, r)
        | none => .error "Unexpected token in JSON"
      else if c = '"' then do
        let (chars, r) ← parseStringChars (rest.length + 1) rest
        .ok (Json.jstr (String.mk chars), r)
      else if c = '\x7b' then
        match skipWs rest with
        | '\x7d' :: r => .ok (Json.jobj [], r)
        | _ => do
          let (fs, r) ← parseObjItems fuel rest
          .ok (Json.jobj fs, r)
      else if c = '[' then
        match skipWs rest with
        | ']' :: r => .ok (Json.jarr [], r)
        | _ => do
          let (vs, r) ← parseArrItems fuel rest
          .ok (Json.jarr vs, r)
      else do
        let (q, r) ← parseNumber (c :: rest)
        .ok (Json.jnum q, r)

/-- Comma-separated array elements up to the closing bracket. -/
def parseArrItems : Nat → List Char → Except String (List Json × List Char)
  | 0, _ => .error "JSON nesting exhausted"
  | fuel + 1, cs => do
    let (v, r1) ← parseVal fuel cs
    match skipWs r1 with
    | ',' :: r2 => do
      let (vs, r3) ← parseArrItems fuel r2
      .ok (v :: vs, r3)
    | ']' :: r2 => .ok ([v], r2)
    | _ => .error "Expected comma or closing bracket in JSON array"

/-- Comma-separated `"key": value` members up to the closing brace. -/
def parseObjItems : Nat → List Char → Except String (List (String × Json) × List Char)
  | 0, _ => .error "JSON nesting exhausted"
  | fuel + 1, cs =>
    match skipWs cs with
    | '"' :: r => do
      let (kChars, r1) ← parseStringChars (r.length + 1) r
      match skipWs r1 with
      | ':' :: r2 => do
        let (v, r3) ← parseVal fuel r2
        match skipWs r3 with
        | ',' :: r4 => do
          let (fs, r5) ← parseObjItems fuel r4
          .ok ((String.mk kChars, v) :: fs, r5)
        | '\x7d' :: r4 => .ok ([(String.mk kChars, v)], r4)
        | _ => .error "Expected comma or closing brace in JSON object"
      | _ => .error "Expected colon in JSON object"
    | _ => .error "Expected property name in JSON object"

end

/-- The model of `JSON.parse`: parse one value and require only
whitespace after it; on any violation of the JSON grammar the result is
an error (a thrown `SyntaxError` in JavaScript). -/
def jsonParse (s : String) : Except String Json := do
  let cs := s.toList
  let (v, rest) ← parseVal (2 * cs.length + 2) cs
  match skipWs rest with
  | [] => .ok v
  | _ => .error "Unexpected non-whitespace character after JSON"

/-- The validated request record produced by `InputSchema.safeParse`
(`parsed.data` in the source). -/
structure GenInput where
  theme : String
  genre : String
  characters : String
  length : Nat
deriving DecidableEq

namespace InputSchema

/-- One optional string field of the zod schema:
`z.string().max(n).default("")`.  `none` is a failed field. -/
def checkStr (o : Option Json) (maxLen : Nat) : Option String :=
  match o with
  | none => some ""
  | some (.jstr s) => if s.length ≤ maxLen then some s else none
  | some _ => none

/-- The `length` field: `z.number().int().min(50).max(1000).default(350)`. -/
def checkLen (o : Option Json) : Option Nat :=
  match o with
  | none => some 350
  | some (.jnum q) =>
    if q.den = 1 ∧ 50 ≤ q.num ∧ q.num ≤ 1000 then some q.num.toNat else none
  | some _ => none

/-- `InputSchema.safeParse`: a non-object is rejected outright; on an
object every field is checked independently and the flattened error
names each offending field. -/
def safeParse (raw : Json) : Except (List String) GenInput :=
  match raw with
  | .jobj fs =>
    let tF := checkStr (lookupField fs "theme") 200
    let gF := checkStr (lookupField fs "genre") 100
    let cF := checkStr (lookupField fs "characters") 200
    let lF := checkLen (lookupField fs "length")
    match tF, gF, cF, lF with
    | some t, some g, some c, some l => .ok ⟨t, g, c, l⟩
    | _, _, _, _ =>
      .error ((if tF = none then ["theme"] else []) ++
              (if gF = none then ["genre"] else []) ++
              (if cF = none then ["characters"] else []) ++
              (if lF = none then ["length"] else []))
  | _ => .error ["_form"]

end InputSchema

/-- A thrown JavaScript error as the handlers observe it:
`err.name` and `err.message`. -/
structure JsErr where
  name : String
  message : String
deriving DecidableEq

/-- JavaScript `String(v)` on a JSON value (the `.toString()` coercion
applied to `payload.title` and `payload.body`).  Integer numbers print
exactly as in JavaScript; an element that is `null` prints as the empty
string inside an array join, as `Array.prototype.toString` does. -/
def jsToString : Nat → Json → String
  | _, .jnull => "null"
  | _, .jbool b => cond b "true" "false"
  | _, .jnum q => if q.den = 1 then toString q.num else toString q
  | _, .jstr s => s
  | 0, .jarr _ => ""
  | f + 1, .jarr xs =>
    String.intercalate ","
      (xs.map (fun v => match v with
        | .jnull => ""
        | w => jsToString f w))
  | _, .jobj _ => "[object Object]"

/-- JavaScript property read `v[k]`: reading a property of `null` throws
a `TypeError`; on an object it is the field or `undefined` (`none`); on
every other value it is `undefined`. -/
def getProp (v : Json) (k : String) : Except JsErr (Option Json) :=
  match v with
  | .jnull => .error ⟨"TypeError", "Cannot read properties of null (reading " ++ k ++ ")"⟩
  | .jobj fs => .ok (lookupField fs k)
  | _ => .ok none

/-- Total property read, equal to `getProp` on every non-null value. -/
def propOf (v : Json) (k : String) : Option Json :=
  match v with
  | .jobj fs => lookupField fs k
  | _ => none

/-- `payload.meta ?? \x7b\x7d` for a non-null `payload`. -/
def metaOf (p : Json) : Json :=
  match propOf p "meta" with
  | none => .jobj []
  | some .jnull => .jobj []
  | some m => m

/-- `Array.isArray(m[k]) ? m[k] : []`. -/
def arrOf (m : Json) (k : String) : List Json :=
  match propOf m k with
  | some (.jarr xs) => xs
  | _ => []

/-- One JSON response body of either handler. -/
inductive Resp where
  /-- `res.status(204).end()` — empty body. -/
  | empty : Resp
  /-- A generation result: title, body, `meta.structure`,
  `meta.techniques` and the optional advisory `note`. -/
  | ok : String → String → List Json → List Json → Option String → Resp
  /-- `\x7berror: "Invalid input", detail\x7d` with the field names of the
  flattened validation error. -/
  | invalid : List String → Resp
  /-- `\x7berror: message\x7d`. -/
  | err : String → Resp
  /-- Revision B health check body `\x7bok: true, route: "/api/generate"\x7d`. -/
  | health : Resp

/-- The title of a generation response, if it is one. -/
def Resp.titleOf : Resp → Option String
  | .ok t _ _ _ _ => some t
  | _ => none

/-- The body of a generation response, if it is one. -/
def Resp.bodyOf : Resp → Option String
  | .ok _ b _ _ _ => some b
  | _ => none

/-- The note of a generation response, if it is one (and has one). -/
def Resp.noteOf : Resp → Option String
  | .ok _ _ _ _ n => n
  | _ => none

/-- The field names of a validation-failure response. -/
def Resp.detailOf : Resp → Option (List String)
  | .invalid fields => some fields
  | _ => none

/-- The arguments of the single external chat-completions call: the two
instruction strings and the token budget. -/
structure CallInfo where
  system : String
  user : String
  maxTokens : Nat

/-- What a handler run produces: the HTTP status, the response body,
the external call (with its arguments) if one was issued, whether the
deadline timer was started, and whether a scheduled timer callback is
still pending when the handler returns. -/
structure HOut where
  status : Nat
  resp : Resp
  call : Option CallInfo
  timerStarted : Bool
  timerPending : Bool

/-- The transport body `req.body` as the hosting runtime delivers it:
absent (`undefined`), a raw string, or an already-decoded JSON value. -/
inductive ReqBody where
  | missing : ReqBody
  | str : String → ReqBody
  | json : Json → ReqBody

/-- Outcome of the single awaited external call: aborted by the deadline,
failed with a thrown error, or resolved with the content string of the
first choice (absent content is the empty string, per
`completion.choices?.[0]?.message?.content ?? ""`). -/
inductive ModelOutcome where
  | timeout : ModelOutcome
  | fail : JsErr → ModelOutcome
  | success : String → ModelOutcome

/-- Environment of one revision-A request: the HTTP verb, the transport
body, the one random boolean (`Math.random() < 0.35`) and the outcome of
the external call. -/
structure EnvA where
  method : String
  reqBody : ReqBody
  sandan : Bool
  outcome : ModelOutcome

/-- Environment of one revision-B request; `apiKeySet` is whether
`process.env.OPENAI_API_KEY` is present. -/
structure EnvB where
  method : String
  reqBody : ReqBody
  apiKeySet : Bool
  sandan : Bool
  outcome : ModelOutcome

/-- `${s || "（未指定）"}` — the empty string is the only falsy string. -/
def orUnspecified (s : String) : String :=
  if s = "" then "（未指定）" else s

/-- Revision A token budget
`Math.min(2200, Math.max(500, Math.round(length * 2.2)))`.
For an integer `l`, `l * 2.2` has fractional part in
`\x7b0, .2, .4, .6, .8\x7d`, at distance at least `0.2` from a rounding
boundary, so the double computation rounds exactly like the rational one
and `Math.round(l * 2.2) = ⌊(22 l + 5) / 10⌋`. -/
def maxTokensA (l : Nat) : Nat :=
  min 2200 (max 500 ((22 * l + 5) / 10))

/-- Revision B token budget
`Math.min(2400, Math.max(600, Math.round(length * 2.4)))`, by the same
exactness argument. -/
def maxTokensB (l : Nat) : Nat :=
  min 2400 (max 600 ((24 * l + 5) / 10))

/-- Revision A short-body threshold
`Math.max(120, Math.round(length * 0.6))`; `Math.round(l * 0.6)` equals
`⌊(6 l + 5) / 10⌋` by the same exactness argument. -/
def shortThresholdA (l : Nat) : Nat :=
  max 120 ((6 * l + 5) / 10)

/-- Revision B lower length target
`Math.max(220, Math.round(length * 0.75))`; `0.75` is a dyadic rational,
so the double computation is exact and `Math.round` (half towards `+∞`)
gives `⌊(3 l + 2) / 4⌋`. -/
def minBodyB (l : Nat) : Nat :=
  max 220 ((3 * l + 2) / 4)

/-- Revision A system instruction (the five lines joined by newlines). -/
def systemPromptA : String :=
  String.intercalate "\n"
    [ "あなたは日本語の放送作家です。"
    , "聞き手を惹きつける『エピソードトーク』を作成します。"
    , "NG：誹謗中傷・差別・個人情報・過度に下品な表現・固有名連発。"
    , "必ず JSON だけを返します（説明文やMarkdownは禁止）。"
    , "スキーマ: \x7b\"title\": string, \"body\": string, \"meta\": \x7b\"structure\": string[], \"techniques\": string[]\x7d\x7d"
    ]

/-- Revision B system instruction. -/
def systemPromptB : String :=
  String.intercalate "\n"
    [ "あなたは日本語の放送作家です。"
    , "聞き手を惹きつける『エピソードトーク』を作成します。"
    , "NG：誹謗中傷・差別・個人情報・過度に下品な表現・固有名連発。"
    , "必ず JSON だけを返します（説明文・前置き・Markdownは禁止）。"
    , "JSONスキーマ: \x7b\"title\": string, \"body\": string, \"meta\": \x7b\"structure\": string[], \"techniques\": string[]\x7d\x7d"
    ]

/-- Revision A conditional 三段落ち instruction line. -/
def sandanInstructionA (b : Bool) : String :=
  if b then
    "- 可能なら**三段落ち**を使う：似た展開や言い回しを「一つ目→二つ目→三つ目」で積み上げ、三つ目で予想をズラして落とす（過剰に長くせずテンポ重視）。"
  else ""

/-- Revision B conditional 三段落ち instruction line. -/
def sandanInstructionB (b : Bool) : String :=
  if b then
    "- 可能なら**三段落ち**を使う：似た展開や言い回しを「一つ目→二つ目→三つ目」で積み上げ、三つ目で予想をズラして落とす（テンポ重視・簡潔に）。"
  else ""

/-- The conditional `,"三段落ち"` appended to the instructed `techniques`
array (identical in both revisions). -/
def sandanTail (b : Bool) : String :=
  if b then ",\"三段落ち\"" else ""

/-- Revision A user prompt up to (and including) the line after which the
conditional 三段落ち instruction is interpolated.  The template literal
of the source starts with a newline and ends with one; the surrounding
`.trim()` removes exactly those fixed characters, independently of the
interpolated values, and is applied here. -/
def userPreA (theme genre characters : String) (length : Nat) : String :=
  "# お題\n" ++
  "- テーマ: " ++ orUnspecified theme ++ "\n" ++
  "- トーン(genre): " ++ orUnspecified genre ++ "\n" ++
  "- 登場人物: " ++ orUnspecified characters ++ "\n" ++
  "\n" ++
  "# 制約\n" ++
  "- 本文の目安文字数: 約" ++ toString length ++ "文字（短すぎない。指定の±15% 程度で調整、上限1000字を超えない）\n" ++
  "- 構成: 導入（状況/関係/前提）→膨らまし（勘違い・誇張・比喩・対比）→**どんでん返し**（必ず入れる）→回収（学び/共感）\n" ++
  "- **途中に小さな笑い**を3箇所以上（小ボケ/内心ツッコミ/軽い誇張/言い間違い/ミスリード）。各パートに最低1つ。\n" ++
  "- コールバック：1〜2回。しつこくならない程度に同キーワード/比喩を再登場させ、最後の回収に活かす。\n" ++
  "- テンポ：短文でリズム。会話体と地の文を交互に。\n" ++
  "- キャラ：自虐・共感は適度に。相手は悪者にしない。\n"

/-- Revision A user prompt between the 三段落ち instruction and the
conditional technique label. -/
def userMidA : String :=
  "\n" ++
  "\n" ++
  "# 出力（**JSONのみ**）\n" ++
  "\x7b\n" ++
  "  \"title\": \"短くキャッチーなタイトル（本文と重複させない）\",\n" ++
  "  \"body\": \"本文（見出しやMarkdownは使わない。『導入/本編/どんでん返し/オチ』の流れが自然にわかるように会話体＋地の文で書く）\",\n" ++
  "  \"meta\": \x7b\n" ++
  "    \"structure\": [\"導入\",\"膨らまし\",\"どんでん返し\",\"回収\"],\n" ++
  "    \"techniques\": [\"どんでん返し\",\"反復\",\"誇張\",\"対比\""

/-- Revision A user prompt after the conditional technique label. -/
def userPostA : String :=
  "]\n" ++
  "  \x7d\n" ++
  "\x7d"

/-- The full revision A user instruction, assembled exactly as the
trimmed template literal of the source. -/
def userPromptA (theme genre characters : String) (length : Nat) (b : Bool) : String :=
  userPreA theme genre characters length ++ sandanInstructionA b ++
    userMidA ++ sandanTail b ++ userPostA

/-- Revision B user prompt before the 三段落ち instruction. -/
def userPreB (theme genre characters : String) (length : Nat) : String :=
  "# お題\n" ++
  "- テーマ: " ++ orUnspecified theme ++ "\n" ++
  "- トーン(genre): " ++ orUnspecified genre ++ "\n" ++
  "- 登場人物: " ++ orUnspecified characters ++ "\n" ++
  "\n" ++
  "# 制約\n" ++
  "- 本文の目安文字数: " ++ toString (minBodyB length) ++ "〜" ++ toString length ++ "字（上限1000字を超えない）\n" ++
  "- 構成: 導入（状況/関係/前提）→膨らまし（勘違い・誇張・比喩・対比）→**どんでん返し**（必ず入れる）→回収（学び/共感）\n" ++
  "- **途中に小さな笑い**を3箇所以上（小ボケ/内心ツッコミ/軽い誇張/言い間違い/ミスリード）。各パートに最低1つ。\n" ++
  "- コールバック：1〜2回。しつこくならない程度に同キーワード/比喩を再登場させ、最後の回収に活かす。\n" ++
  "- テンポ：短文でリズム。会話体と地の文を交互に。\n" ++
  "- キャラ：自虐・共感は適度に。相手は悪者にしない。\n"

/-- Revision B user prompt between the 三段落ち instruction and the
conditional technique label (mentions the `minBody` target). -/
def userMidB (length : Nat) : String :=
  "\n" ++
  "\n" ++
  "# 出力（**JSONのみ**）\n" ++
  "\x7b\n" ++
  "  \"title\": \"短くキャッチーなタイトル（本文と重複させない）\",\n" ++
  "  \"body\": \"本文（見出しやMarkdownは使わない。『導入/本編/どんでん返し/オチ』の流れが自然に分かるよう、会話体＋地の文で書く。" ++ toString (minBodyB length) ++ "字以上を目安にする）\",\n" ++
  "  \"meta\": \x7b\n" ++
  "    \"structure\": [\"導入\",\"膨らまし\",\"どんでん返し\",\"回収\"],\n" ++
  "    \"techniques\": [\"どんでん返し\",\"反復\",\"誇張\",\"対比\""

/-- The full revision B user instruction. -/
def userPromptB (theme genre characters : String) (length : Nat) (b : Bool) : String :=
  userPreB theme genre characters length ++ sandanInstructionB b ++
    userMidB length ++ sandanTail b ++ userPostA

/-- `String.prototype.trim`: drop leading and trailing whitespace (for
the space, tab and line-break characters; the exotic Unicode space
characters JavaScript also strips do not occur in the strings handled
here). -/
def jsTrim (s : String) : String :=
  String.mk (((s.data.dropWhile Char.isWhitespace).reverse.dropWhile Char.isWhitespace).reverse)

/-- `(o ?? "").toString().trim()` for a property read result. -/
def coerceOpt (o : Option Json) : String :=
  match o with
  | none => ""
  | some .jnull => ""
  | some v => jsTrim (jsToString 16 v)

/-- The same coercion, phrased on the payload: the value of
`(payload[k] ?? "").toString().trim()` for non-null `payload`. -/
def coerceStr (p : Json) (k : String) : String :=
  coerceOpt (propOf p k)

/-- Revision A response normalisation (source lines 101–132): trim the
content, try `JSON.parse`, fall back on a parse error, otherwise coerce
`title`/`body`/`meta` and attach the short-output note when the coerced
body is below the threshold.  A payload of JSON `null` is the one value
on which the first property read `payload.title` throws (the `TypeError`
of `getProp`; on every other payload the reads are total, see
`getProp_ne_null`), and that throw escapes to the outer `catch`. -/
def normalizeA (c0 : String) (len : Nat) : Except JsErr (Nat × Resp) :=
  match jsonParse (jsTrim c0) with
  | .error _ =>
    .ok (200, .ok "タイトル未取得" (jsTrim c0) [] []
      (some "モデル出力がJSON形式を満たしていないためフォールバックで返却しました。"))
  | .ok .jnull =>
    .error ⟨"TypeError", "Cannot read properties of null (reading title)"⟩
  | .ok payload =>
    if (coerceStr payload "body").length < shortThresholdA len then
      .ok (200, .ok
        (if coerceStr payload "title" = "" then "（短文のため要再生成）"
          else coerceStr payload "title")
        (coerceStr payload "body")
        (arrOf (metaOf payload) "structure") (arrOf (metaOf payload) "techniques")
        (some "短めの結果です。もう一度生成すると改善される場合があります。"))
    else
      .ok (200, .ok (coerceStr payload "title") (coerceStr payload "body")
        (arrOf (metaOf payload) "structure") (arrOf (metaOf payload) "techniques") none)

/-- Revision B response normalisation (source lines 129–178); the only
differences are the threshold (`body.length < minBody * 0.8`, exactly
`5 * body.length < 4 * minBody` since `0.8 * m` for `220 ≤ m ≤ 750`
rounds to a double strictly between the neighbouring integers unless
exact) and the wording of the short note. -/
def normalizeB (c0 : String) (len : Nat) : Except JsErr (Nat × Resp) :=
  match jsonParse (jsTrim c0) with
  | .error _ =>
    .ok (200, .ok "タイトル未取得" (jsTrim c0) [] []
      (some "モデル出力がJSON形式を満たしていないためフォールバックで返却しました。"))
  | .ok .jnull =>
    .error ⟨"TypeError", "Cannot read properties of null (reading title)"⟩
  | .ok payload =>
    if 5 * (coerceStr payload "body").length < 4 * minBodyB len then
      .ok (200, .ok
        (if coerceStr payload "title" = "" then "（短文のため要再生成）"
          else coerceStr payload "title")
        (coerceStr payload "body")
        (arrOf (metaOf payload) "structure") (arrOf (metaOf payload) "techniques")
        (some "短めの結果です。文字数を少し大きめにして再生成すると改善する場合があります。"))
    else
      .ok (200, .ok (coerceStr payload "title") (coerceStr payload "body")
        (arrOf (metaOf payload) "structure") (arrOf (metaOf payload) "techniques") none)

/-- Revision A body decoding:
`typeof req.body === "string" ? JSON.parse(req.body || "\x7b\x7d") : (req.body ?? \x7b\x7d)`.
A failed `JSON.parse` is a thrown `SyntaxError`. -/
def decodeBodyA (b : ReqBody) : Except JsErr Json :=
  match b with
  | .str s =>
    match jsonParse (if s = "" then "\x7b\x7d" else s) with
    | .ok v => .ok v
    | .error m => .error ⟨"SyntaxError", m⟩
  | .missing => .ok (.jobj [])
  | .json .jnull => .ok (.jobj [])
  | .json v => .ok v

/-- Revision B body decoding:
`typeof req.body === "string" && req.body.length ? JSON.parse(req.body) : (req.body ?? \x7b\x7d)`.
An empty string body is not parsed: it reaches the validator as the
string value itself. -/
def decodeBodyB (b : ReqBody) : Except JsErr Json :=
  match b with
  | .str s =>
    if s = "" then .ok (.jstr "")
    else
      match jsonParse s with
      | .ok v => .ok v
      | .error m => .error ⟨"SyntaxError", m⟩
  | .missing => .ok (.jobj [])
  | .json .jnull => .ok (.jobj [])
  | .json v => .ok v

/-- The revision A `try` block: decode, validate, build the prompts,
issue the call, normalise; the second component records the external
call if (and only if) one was issued. -/
def tryBodyA (e : EnvA) : Except JsErr (Nat × Resp) × Option CallInfo :=
  match decodeBodyA e.reqBody with
  | .error er => (.error er, none)
  | .ok raw =>
    match InputSchema.safeParse raw with
    | .error fields => (.ok (400, .invalid fields), none)
    | .ok d =>
      let info : CallInfo :=
        ⟨systemPromptA, userPromptA d.theme d.genre d.characters d.length e.sandan,
          maxTokensA d.length⟩
      match e.outcome with
      | .timeout => (.error ⟨"AbortError", "Request was aborted."⟩, some info)
      | .fail er => (.error er, some info)
      | .success c0 => (normalizeA c0 d.length, some info)

/-- The revision B `try` block. -/
def tryBodyB (e : EnvB) : Except JsErr (Nat × Resp) × Option CallInfo :=
  match decodeBodyB e.reqBody with
  | .error er => (.error er, none)
  | .ok raw =>
    match InputSchema.safeParse raw with
    | .error fields => (.ok (400, .invalid fields), none)
    | .ok d =>
      let info : CallInfo :=
        ⟨systemPromptB, userPromptB d.theme d.genre d.characters d.length e.sandan,
          maxTokensB d.length⟩
      match e.outcome with
      | .timeout => (.error ⟨"AbortError", "Request was aborted."⟩, some info)
      | .fail er => (.error er, some info)
      | .success c0 => (normalizeB c0 d.length, some info)

/-- The `catch`/`finally` of both handlers: a thrown error named
`AbortError` becomes a 504, every other throw a 500 with the message,
and the `finally` clause clears the deadline timer on every path, so
`timerPending` is false in every outcome. -/
def finishTry (r : Except JsErr (Nat × Resp) × Option CallInfo) : HOut :=
  match r with
  | (.ok (st, rsp), call) => ⟨st, rsp, call, true, false⟩
  | (.error er, call) =>
    ⟨if er.name = "AbortError" then 504 else 500, .err er.message, call, true, false⟩

/-- The revision A handler (`src/api/generate.ts`). -/
def handlerA (e : EnvA) : HOut :=
  if e.method = "OPTIONS" then ⟨204, .empty, none, false, false⟩
  else if e.method ≠ "POST" then ⟨405, .err "Method Not Allowed", none, false, false⟩
  else finishTry (tryBodyA e)

/-- The revision B handler (`src/unnamed/part_000`): additionally serves
a GET health check and rejects every POST with a 500 before starting the
timer or issuing any call when the API key is absent. -/
def handlerB (e : EnvB) : HOut :=
  if e.method = "OPTIONS" then ⟨204, .empty, none, false, false⟩
  else if e.method = "GET" then ⟨200, .health, none, false, false⟩
  else if e.method ≠ "POST" then ⟨405, .err "Method Not Allowed", none, false, false⟩
  else if e.apiKeySet = false then
    ⟨500, .err "OPENAI_API_KEY is not set on server.", none, false, false⟩
  else finishTry (tryBodyB e)

/-- Substring occurrence on lists (`p` occurs somewhere in the list). -/
def occursInList [BEq α] (p : List α) : List α → Bool
  | [] => p.isEmpty
  | c :: cs => p.isPrefixOf (c :: cs) || occursInList p cs

/-- Substring occurrence on strings. -/
def occursIn (pat s : String) : Bool :=
  occursInList pat.toList s.toList

/-- A POST whose model call returns the string `null`. -/
def envNullA : EnvA := ⟨"POST", .missing, false, .success "null"⟩

/-- A POST whose model call returns non-JSON text. -/
def envGarbledA : EnvA := ⟨"POST", .missing, false, .success "ただのテキスト"⟩

/-- A POST whose model call returns a well-formed object with a short
body and no title. -/
def envShortA : EnvA := ⟨"POST", .missing, false, .success "\x7b\"body\":\"abc\"\x7d"⟩

/-- The payload `envShortA`'s model output parses to. -/
def payloadShort : Json := .jobj [("body", .jstr "abc")]

/-- A POST whose model call returns a short body and a title. -/
def envShortTitledA : EnvA :=
  ⟨"POST", .missing, false, .success "\x7b\"title\":\"T\",\"body\":\"abc\"\x7d"⟩

/-- The payload `envShortTitledA`'s model output parses to. -/
def payloadShortTitled : Json := .jobj [("title", .jstr "T"), ("body", .jstr "abc")]

/-- A POST with an out-of-range `length` field. -/
def envLen30A : EnvA := ⟨"POST", .json (.jobj [("length", .jnum 30)]), false, .success ""⟩

/-- A POST whose external call hits the 30-second deadline. -/
def envTimeoutA : EnvA := ⟨"POST", .missing, false, .timeout⟩

/-- A POST whose transport body is the non-empty, non-JSON string. -/
def envBadJsonA : EnvA := ⟨"POST", .str "\x7b", false, .success ""⟩

/-- A POST to revision B with the API key absent. -/
def envNoKeyB : EnvB := ⟨"POST", .missing, false, false, .success ""⟩

/-- A valid POST seen through a decoded-object body. -/
def envObjA : EnvA := ⟨"POST", .json (.jobj []), false, .timeout⟩

/-- A valid POST to revision B. -/
def envOkB : EnvB := ⟨"POST", .missing, true, false, .success ""⟩

/-- The `finally` clause runs on every exit of the `try`/`catch`. -/
theorem finishTry_timerPending (r : Except JsErr (Nat × Resp) × Option CallInfo) :
    (finishTry r).timerPending = false := by
  rcases r with ⟨(⟨st, rsp⟩ | er), c⟩ <;> rfl

/-- The `finally` clause does not alter which call was issued. -/
theorem finishTry_call (r : Except JsErr (Nat × Resp) × Option CallInfo) :
    (finishTry r).call = r.2 := by
  rcases r with ⟨(⟨st, rsp⟩ | er), c⟩ <;> rfl

/-- For a POST, the handler is the `try`/`catch`/`finally` around the body. -/
theorem handlerA_post (e : EnvA) (h : e.method = "POST") :
    handlerA e = finishTry (tryBodyA e) := by
  simp [handlerA, h]

/-- For a POST with the key present, revision B runs its `try` block. -/
theorem handlerB_post (e : EnvB) (h : e.method = "POST") (hk : e.apiKeySet = true) :
    handlerB e = finishTry (tryBodyB e) := by
  simp [handlerB, h, hk]

/-- Property reads never throw on a non-null value. -/
theorem getProp_ne_null (p : Json) (h : p ≠ .jnull) (k : String) :
    getProp p k = .ok (propOf p k) := by
  cases p <;> simp_all [getProp, propOf]

/-- Once decoding and validation succeed, revision A records the call
with the prompts and budget computed from the validated data, whatever
the outcome of the call. -/
theorem tryBodyA_call (e : EnvA) (raw : Json) (d : GenInput)
    (hdec : decodeBodyA e.reqBody = .ok raw)
    (hsp : InputSchema.safeParse raw = .ok d) :
    (tryBodyA e).2 = some
      ⟨systemPromptA, userPromptA d.theme d.genre d.characters d.length e.sandan,
        maxTokensA d.length⟩ := by
  cases ho : e.outcome <;> simp [tryBodyA, hdec, hsp, ho]

/-- Revision B analogue of `tryBodyA_call`. -/
theorem tryBodyB_call (e : EnvB) (raw : Json) (d : GenInput)
    (hdec : decodeBodyB e.reqBody = .ok raw)
    (hsp : InputSchema.safeParse raw = .ok d) :
    (tryBodyB e).2 = some
      ⟨systemPromptB, userPromptB d.theme d.genre d.characters d.length e.sandan,
        maxTokensB d.length⟩ := by
  cases ho : e.outcome <;> simp [tryBodyB, hdec, hsp, ho]

/-- If the `length` field check fails, validation fails and the
flattened error list ends with `length`. -/
theorem safeParse_length_err (fs : List (String × Json))
    (h : InputSchema.checkLen (lookupField fs "length") = none) :
    InputSchema.safeParse (.jobj fs) =
      .error ((if InputSchema.checkStr (lookupField fs "theme") 200 = none then ["theme"] else []) ++
              (if InputSchema.checkStr (lookupField fs "genre") 100 = none then ["genre"] else []) ++
              (if InputSchema.checkStr (lookupField fs "characters") 200 = none then ["characters"] else []) ++
              ["length"]) := by
  rcases ht : InputSchema.checkStr (lookupField fs "theme") 200 with _ | t <;>
    rcases hg : InputSchema.checkStr (lookupField fs "genre") 100 with _ | g <;>
      rcases hc : InputSchema.checkStr (lookupField fs "characters") 200 with _ | c <;>
        simp [InputSchema.safeParse, ht, hg, hc, h]

/-- If the `length` field check succeeds, a failed validation does not
name `length`. -/
theorem safeParse_length_ok (fs : List (String × Json)) (l : Nat)
    (h : InputSchema.checkLen (lookupField fs "length") = some l)
    (fields : List String)
    (hsp : InputSchema.safeParse (.jobj fs) = .error fields) :
    "length" ∉ fields := by
  rcases ht : InputSchema.checkStr (lookupField fs "theme") 200 with _ | t <;>
    rcases hg : InputSchema.checkStr (lookupField fs "genre") 100 with _ | g <;>
      rcases hc : InputSchema.checkStr (lookupField fs "characters") 200 with _ | c <;>
        simp [InputSchema.safeParse, ht, hg, hc, h] at hsp <;>
          simp [← hsp]

/-- C7: on every exit path of either handler — success, validation
failure, parse fallback, short-output path, timeout and every thrown
error — the deadline timer has been cancelled when the handler returns
(the `finally` clause covers every return inside `try` and `catch`, and
the paths that return before the timer is started never schedule it), so
no scheduled callback is left pending. -/
theorem claim7_timer_cancelled_every_path :
    (∀ e : EnvA, (handlerA e).timerPending = false) ∧
    (∀ e : EnvB, (handlerB e).timerPending = false) := by
  constructor
  · intro e
    unfold handlerA
    split
    · rfl
    · split
      · rfl
      · exact finishTry_timerPending _
  · intro e
    unfold handlerB
    split
    · rfl
    · split
      · rfl
      · split
        · rfl
        · split
          · rfl
          · exact finishTry_timerPending _

/-- C5: in the revision that checks the credential
(`src/unnamed/part_000`), an absent `OPENAI_API_KEY` makes every POST
answer HTTP 500 with an error message, before the timer is started and
without issuing any external call. -/
theorem claim5_missing_key_500 (e : EnvB)
    (hm : e.method = "POST") (hk : e.apiKeySet = false) :
    handlerB e = ⟨500, .err "OPENAI_API_KEY is not set on server.", none, false, false⟩ := by
  simp [handlerB, hm, hk]

/-- C5 witness: a concrete POST without the key. -/
theorem claim5_missing_key_500_witness :
    handlerB envNoKeyB = ⟨500, .err "OPENAI_API_KEY is not set on server.", none, false, false⟩ :=
  claim5_missing_key_500 envNoKeyB rfl rfl

/-- C6: when the external call of a validated POST is aborted by the
30-second deadline the response is HTTP 504 with an error message, and
every other failure of the external call (whose thrown error is not
named `AbortError`) is answered with HTTP 500, so the timeout is
distinguishable by status code. -/
theorem claim6_timeout_504 (e : EnvA) (raw : Json) (d : GenInput)
    (hm : e.method = "POST")
    (hdec : decodeBodyA e.reqBody = .ok raw)
    (hsp : InputSchema.safeParse raw = .ok d) :
    (e.outcome = .timeout →
      (handlerA e).status = 504 ∧ (handlerA e).resp = .err "Request was aborted.") ∧
    (∀ er : JsErr, e.outcome = .fail er → er.name ≠ "AbortError" →
      (handlerA e).status = 500 ∧ (handlerA e).resp = .err er.message) := by
  rw [handlerA_post e hm]
  constructor
  · intro ho
    simp [tryBodyA, hdec, hsp, ho, finishTry]
  · intro er ho hname
    simp [tryBodyA, hdec, hsp, ho, finishTry, hname]

/-- C6 witness: a concrete timed-out POST gets the 504. -/
theorem claim6_timeout_504_witness :
    (handlerA envTimeoutA).status = 504 ∧
    (handlerA envTimeoutA).resp = .err "Request was aborted." :=
  (claim6_timeout_504 envTimeoutA (.jobj []) ⟨"", "", "", 350⟩ rfl rfl rfl).1 rfl

/-- C10: a POST whose transport body is a non-empty string that is not
valid JSON makes `JSON.parse` throw inside the `try` block; the request
is answered by the generic error branch with HTTP 500 carrying the parse
error message — not by the 400 validation branch — and no external call
is attempted. -/
theorem claim10_bad_body_500 (e : EnvA) (s m : String)
    (hm : e.method = "POST") (hb : e.reqBody = .str s) (hs : s ≠ "")
    (hj : jsonParse s = .error m) :
    handlerA e = ⟨500, .err m, none, true, false⟩ := by
  rw [handlerA_post e hm]
  have hdec : decodeBodyA e.reqBody = .error ⟨"SyntaxError", m⟩ := by
    rw [hb]
    simp [decodeBodyA, hs, hj]
  simp [tryBodyA, hdec, finishTry]

/-- C10 witness: the body `\x7b` (a lone opening brace). -/
theorem claim10_bad_body_500_witness :
    handlerA envBadJsonA =
      ⟨500, .err "Expected property name in JSON object", none, true, false⟩ :=
  claim10_bad_body_500 envBadJsonA "\x7b" "Expected property name in JSON object"
    rfl rfl (by decide) rfl

/-- C3: a POST whose decoded payload carries an integer `length` outside
the closed range [50, 1000] fails validation with HTTP 400, a field
breakdown naming `length` and no external call (the value is never
clamped); at exactly 50 or exactly 1000 the `length` field passes, so no
validation breakdown ever names it. -/
theorem claim3_length_range (e : EnvA) (fs : List (String × Json)) (q : ℚ)
    (hm : e.method = "POST")
    (hdec : decodeBodyA e.reqBody = .ok (.jobj fs))
    (hlen : lookupField fs "length" = some (.jnum q))
    (hden : q.den = 1) :
    ((q.num < 50 ∨ 1000 < q.num) →
      (handlerA e).status = 400 ∧
      (∃ fields, (handlerA e).resp = .invalid fields ∧ "length" ∈ fields) ∧
      (handlerA e).call = none) ∧
    ((q.num = 50 ∨ q.num = 1000) →
      ∀ fields, InputSchema.safeParse (.jobj fs) = .error fields → "length" ∉ fields) := by
  constructor
  · intro hout
    have hcl : InputSchema.checkLen (lookupField fs "length") = none := by
      rw [hlen]
      show (if q.den = 1 ∧ 50 ≤ q.num ∧ q.num ≤ 1000 then some q.num.toNat else none) = none
      rw [if_neg]
      rintro ⟨-, h1, h2⟩
      rcases hout with h | h
      · omega
      · omega
    have hsp := safeParse_length_err fs hcl
    rw [handlerA_post e hm]
    refine ⟨?_,
      ⟨(if InputSchema.checkStr (lookupField fs "theme") 200 = none then ["theme"] else []) ++
        (if InputSchema.checkStr (lookupField fs "genre") 100 = none then ["genre"] else []) ++
        (if InputSchema.checkStr (lookupField fs "characters") 200 = none then ["characters"] else []) ++
        ["length"], ?_, ?_⟩, ?_⟩
    · simp [tryBodyA, hdec, hsp, finishTry]
    · simp [tryBodyA, hdec, hsp, finishTry]
    · simp
    · simp [tryBodyA, hdec, hsp, finishTry]
  · intro hbd fields hsp
    have hcl : InputSchema.checkLen (lookupField fs "length") = some q.num.toNat := by
      rw [hlen]
      show (if q.den = 1 ∧ 50 ≤ q.num ∧ q.num ≤ 1000 then some q.num.toNat else none) =
        some q.num.toNat
      rw [if_pos]
      exact ⟨hden, by omega, by omega⟩
    exact safeParse_length_ok fs q.num.toNat hcl fields hsp

/-- C3 witness: `length = 30` is rejected with a breakdown naming
`length` and no call. -/
theorem claim3_length_range_witness :
    (handlerA envLen30A).status = 400 ∧ (handlerA envLen30A).call = none := by
  have h := (claim3_length_range envLen30A [("length", .jnum 30)] 30 rfl rfl rfl rfl).1
    (Or.inl (by decide))
  exact ⟨h.1, h.2.2⟩

/-- C4: omitted fields resolve to the documented defaults: an absent or
empty transport body decodes to the empty record, the empty record
validates to `theme=""`, `genre=""`, `characters=""`, `length=350`, and
whenever validation of any object succeeds, each omitted field has taken
exactly its default. -/
theorem claim4_defaults :
    decodeBodyA .missing = .ok (.jobj []) ∧
    decodeBodyA (.str "") = .ok (.jobj []) ∧
    InputSchema.safeParse (.jobj []) = .ok ⟨"", "", "", 350⟩ ∧
    ∀ (fs : List (String × Json)) (r : GenInput),
      InputSchema.safeParse (.jobj fs) = .ok r →
      (lookupField fs "theme" = none → r.theme = "") ∧
      (lookupField fs "genre" = none → r.genre = "") ∧
      (lookupField fs "characters" = none → r.characters = "") ∧
      (lookupField fs "length" = none → r.length = 350) := by
  refine ⟨rfl, rfl, rfl, ?_⟩
  intro fs r hok
  rcases ht : InputSchema.checkStr (lookupField fs "theme") 200 with _ | t <;>
    rcases hg : InputSchema.checkStr (lookupField fs "genre") 100 with _ | g <;>
      rcases hc : InputSchema.checkStr (lookupField fs "characters") 200 with _ | c <;>
        rcases hl : InputSchema.checkLen (lookupField fs "length") with _ | l <;>
          simp [InputSchema.safeParse, ht, hg, hc, hl] at hok
  subst hok
  refine ⟨?_, ?_, ?_, ?_⟩
  · intro hnone
    rw [hnone] at ht
    simp only [InputSchema.checkStr, Option.some.injEq] at ht
    first
    | exact ht
    | exact ht.symm
  · intro hnone
    rw [hnone] at hg
    simp only [InputSchema.checkStr, Option.some.injEq] at hg
    first
    | exact hg
    | exact hg.symm
  · intro hnone
    rw [hnone] at hc
    simp only [InputSchema.checkStr, Option.some.injEq] at hc
    first
    | exact hc
    | exact hc.symm
  · intro hnone
    rw [hnone] at hl
    simp only [InputSchema.checkLen, Option.some.injEq] at hl
    show l = 350
    omega

/-- C8: the token budget is a function of the validated `length` alone
(the budget recorded on the issued call is exactly `maxTokens` of the
parsed length, in both revisions), it is monotonically non-decreasing,
and over the valid range it stays within the fixed floor and cap of each
revision (500–2200 in revision A, 600–2400 in revision B). -/
theorem claim8_token_budget :
    (∀ l1 l2 : Nat, l1 ≤ l2 →
      maxTokensA l1 ≤ maxTokensA l2 ∧ maxTokensB l1 ≤ maxTokensB l2) ∧
    (∀ l : Nat, 50 ≤ l → l ≤ 1000 →
      500 ≤ maxTokensA l ∧ maxTokensA l ≤ 2200 ∧
      600 ≤ maxTokensB l ∧ maxTokensB l ≤ 2400) ∧
    (∀ (e : EnvA) (raw : Json) (d : GenInput),
      e.method = "POST" →
      decodeBodyA e.reqBody = .ok raw →
      InputSchema.safeParse raw = .ok d →
      Option.map CallInfo.maxTokens (handlerA e).call = some (maxTokensA d.length)) ∧
    (∀ (e : EnvB) (raw : Json) (d : GenInput),
      e.method = "POST" → e.apiKeySet = true →
      decodeBodyB e.reqBody = .ok raw →
      InputSchema.safeParse raw = .ok d →
      Option.map CallInfo.maxTokens (handlerB e).call = some (maxTokensB d.length)) := by
  refine ⟨?_, ?_, ?_, ?_⟩
  · intro l1 l2 h
    constructor
    · exact min_le_min le_rfl
        (max_le_max le_rfl (Nat.div_le_div_right (by omega)))
    · exact min_le_min le_rfl
        (max_le_max le_rfl (Nat.div_le_div_right (by omega)))
  · intro l h1 h2
    refine ⟨le_min (by norm_num) (le_max_left _ _), min_le_left _ _,
      le_min (by norm_num) (le_max_left _ _), min_le_left _ _⟩
  · intro e raw d hm hdec hsp
    rw [handlerA_post e hm, finishTry_call, tryBodyA_call e raw d hdec hsp]
    rfl
  · intro e raw d hm hk hdec hsp
    rw [handlerB_post e hm hk, finishTry_call, tryBodyB_call e raw d hdec hsp]
    rfl

/-- C8 witness: concrete monotonicity, bounds and the budget actually
passed on a defaulted request (350 characters give 770 tokens in
revision A, 840 in revision B). -/
theorem claim8_token_budget_witness :
    (maxTokensA 50 ≤ maxTokensA 1000 ∧ maxTokensB 50 ≤ maxTokensB 1000) ∧
    (500 ≤ maxTokensA 350 ∧ maxTokensA 350 ≤ 2200 ∧
      600 ≤ maxTokensB 350 ∧ maxTokensB 350 ≤ 2400) ∧
    Option.map CallInfo.maxTokens (handlerA envObjA).call = some (maxTokensA 350) ∧
    Option.map CallInfo.maxTokens (handlerB envOkB).call = some (maxTokensB 350) :=
  ⟨claim8_token_budget.1 50 1000 (by norm_num),
    claim8_token_budget.2.1 350 (by norm_num) (by norm_num),
    claim8_token_budget.2.2.1 envObjA (.jobj []) ⟨"", "", "", 350⟩ rfl rfl rfl,
    claim8_token_budget.2.2.2 envOkB (.jobj []) ⟨"", "", "", 350⟩ rfl rfl rfl rfl⟩

/-- C9: prompt assembly is deterministic in everything but the single
random boolean — two POSTs validating to the same data with the same
boolean produce identical system and user instruction strings, whatever
their transport encoding or call outcome —; the user prompt factors
through the boolean-controlled instruction line and technique label, and
the 三段落ち instruction occurs in the instruction line exactly when the
boolean is set, exactly when the 三段落ち label is added to the
instructed schema. -/
theorem claim9_prompt_determinism :
    (∀ (e1 e2 : EnvA) (raw1 raw2 : Json) (d : GenInput),
      e1.method = "POST" → e2.method = "POST" →
      decodeBodyA e1.reqBody = .ok raw1 → decodeBodyA e2.reqBody = .ok raw2 →
      InputSchema.safeParse raw1 = .ok d → InputSchema.safeParse raw2 = .ok d →
      e1.sandan = e2.sandan →
      Option.map (fun ci => (ci.system, ci.user)) (handlerA e1).call =
        Option.map (fun ci => (ci.system, ci.user)) (handlerA e2).call) ∧
    (∀ (t g c : String) (l : Nat) (b : Bool),
      userPromptA t g c l b =
        userPreA t g c l ++ sandanInstructionA b ++ userMidA ++ sandanTail b ++ userPostA) ∧
    (∀ b : Bool,
      occursIn "三段落ち" (sandanInstructionA b) = b ∧
      occursIn "三段落ち" (sandanTail b) = b) := by
  refine ⟨?_, ?_, ?_⟩
  · intro e1 e2 raw1 raw2 d hm1 hm2 hdec1 hdec2 hsp1 hsp2 hsd
    rw [handlerA_post e1 hm1, handlerA_post e2 hm2, finishTry_call, finishTry_call,
      tryBodyA_call e1 raw1 d hdec1 hsp1, tryBodyA_call e2 raw2 d hdec2 hsp2, hsd]
  · intro t g c l b
    rfl
  · intro b
    cases b
    · exact ⟨rfl, rfl⟩
    · exact ⟨rfl, rfl⟩

/-- C9 witness: two concrete POSTs with different transport encodings and
outcomes but the same validated data and boolean produce the same
prompts, and the 三段落ち instruction is present for the set boolean. -/
theorem claim9_prompt_determinism_witness :
    Option.map (fun ci => (ci.system, ci.user)) (handlerA envTimeoutA).call =
      Option.map (fun ci => (ci.system, ci.user)) (handlerA envObjA).call ∧
    occursIn "三段落ち" (sandanInstructionA true) = true :=
  ⟨claim9_prompt_determinism.1 envTimeoutA envObjA (.jobj []) (.jobj [])
      ⟨"", "", "", 350⟩ rfl rfl rfl rfl rfl rfl rfl,
    (claim9_prompt_determinism.2.2 true).1⟩

/-- C1: the fallback is taken only when `JSON.parse` itself throws (as it
does for plain text, second pair of conjuncts); but on the model output
`null`, `JSON.parse` succeeds, the subsequent read of `payload.title`
throws a `TypeError` that the inner `catch` does not cover, and the
handler answers HTTP 500 from the generic error branch — contradicting
the claim that the fallback never lets this condition produce a 500. -/
theorem claim1_null_output_breaks_fallback :
    (handlerA envNullA).status = 500 ∧
    (handlerA envNullA).resp = .err "Cannot read properties of null (reading title)" ∧
    (handlerA envGarbledA).status = 200 ∧
    (handlerA envGarbledA).resp =
      .ok "タイトル未取得" "ただのテキスト" [] []
        (some "モデル出力がJSON形式を満たしていないためフォールバックで返却しました。") :=
  ⟨rfl, rfl, rfl, rfl⟩

/-- C2 counterexample: a parsed payload with a short body and no title —
the coerced title of the parsed payload is empty, but the handler does
not return it unchanged: the short-output branch substitutes the fixed
placeholder, so the response title differs from the parsed title. -/
theorem claim2_counterexample :
    jsonParse "\x7b\"body\":\"abc\"\x7d" = .ok payloadShort ∧
    coerceStr payloadShort "title" = "" ∧
    (coerceStr payloadShort "body").length < shortThresholdA 350 ∧
    (handlerA envShortA).status = 200 ∧
    (handlerA envShortA).resp.titleOf = some "（短文のため要再生成）" ∧
    (handlerA envShortA).resp.titleOf ≠ some (coerceStr payloadShort "title") := by
  exact ⟨rfl, rfl, by decide, rfl, rfl, by decide⟩

/-- C2 as amended: for every successfully parsed non-null payload, if the
coerced body is below the short-output threshold the handler returns
HTTP 200 with the parsed body, structure and techniques unchanged and
the regeneration note, the title being kept unless its coercion is empty,
in which case a fixed placeholder is substituted; at or above the
threshold everything is returned unchanged and no note is attached. -/
theorem claim2_short_output_note (e : EnvA) (raw payload : Json) (d : GenInput) (c0 : String)
    (hm : e.method = "POST")
    (hdec : decodeBodyA e.reqBody = .ok raw)
    (hsp : InputSchema.safeParse raw = .ok d)
    (hout : e.outcome = .success c0)
    (hjp : jsonParse (jsTrim c0) = .ok payload)
    (hnn : payload ≠ .jnull) :
    ((coerceStr payload "body").length < shortThresholdA d.length →
      (handlerA e).status = 200 ∧
      (handlerA e).resp = .ok
        (if coerceStr payload "title" = "" then "（短文のため要再生成）"
          else coerceStr payload "title")
        (coerceStr payload "body")
        (arrOf (metaOf payload) "structure") (arrOf (metaOf payload) "techniques")
        (some "短めの結果です。もう一度生成すると改善される場合があります。")) ∧
    (¬ (coerceStr payload "body").length < shortThresholdA d.length →
      (handlerA e).status = 200 ∧
      (handlerA e).resp = .ok (coerceStr payload "title") (coerceStr payload "body")
        (arrOf (metaOf payload) "structure") (arrOf (metaOf payload) "techniques") none) := by
  rw [handlerA_post e hm]
  have hn : normalizeA c0 d.length =
      (if (coerceStr payload "body").length < shortThresholdA d.length then
        .ok (200, .ok
          (if coerceStr payload "title" = "" then "（短文のため要再生成）"
            else coerceStr payload "title")
          (coerceStr payload "body")
          (arrOf (metaOf payload) "structure") (arrOf (metaOf payload) "techniques")
          (some "短めの結果です。もう一度生成すると改善される場合があります。"))
      else
        .ok (200, .ok (coerceStr payload "title") (coerceStr payload "body")
          (arrOf (metaOf payload) "structure") (arrOf (metaOf payload) "techniques") none)) := by
    cases payload
    case jnull => exact absurd rfl hnn
    all_goals
      unfold normalizeA
      rw [hjp]
  constructor
  · intro hshort
    rw [if_pos hshort] at hn
    simp [tryBodyA, hdec, hsp, hout, hn, finishTry]
  · intro hlong
    rw [if_neg hlong] at hn
    simp [tryBodyA, hdec, hsp, hout, hn, finishTry]

/-- C2 amended witness: a short body with a present title keeps the
title, returns 200 and attaches the regeneration note. -/
theorem claim2_short_output_note_witness :
    (handlerA envShortTitledA).status = 200 ∧
    (handlerA envShortTitledA).resp =
      .ok "T" "abc" [] []
        (some "短めの結果です。もう一度生成すると改善される場合があります。") := by
  have h := (claim2_short_output_note envShortTitledA (.jobj []) payloadShortTitled
    ⟨"", "", "", 350⟩ "\x7b\"title\":\"T\",\"body\":\"abc\"\x7d"
    rfl rfl rfl rfl rfl (fun hx => Json.noConfusion hx)).1 (by decide)
  refine ⟨h.1, ?_⟩
  rw [h.2]
  rfl

/-- C4 witness: a request carrying only `genre` validates with every
other field at its default. -/
theorem claim4_defaults_witness :
    InputSchema.safeParse (.jobj [("genre", Json.jstr "x")]) = .ok ⟨"", "x", "", 350⟩ ∧
    (⟨"", "x", "", 350⟩ : GenInput).theme = "" ∧
    (⟨"", "x", "", 350⟩ : GenInput).characters = "" ∧
    (⟨"", "x", "", 350⟩ : GenInput).length = 350 := by
  have h := claim4_defaults.2.2.2 [("genre", Json.jstr "x")] ⟨"", "x", "", 350⟩ rfl
  exact ⟨rfl, h.1 rfl, h.2.2.1 rfl, h.2.2.2 rfl⟩
